import Mathlib

/-
Verification of the kmriiwa_ws repository against its specification.

Part 1: the behavior-tree condition node
`src/kuka_behaviortree/plugins/condition/frame_empty.cpp`
(class kmr_behavior_tree::FrameEmptyCondition).

The blackboard of behaviortree_cpp_v3 is a string-keyed store of typed
values; `Blackboard::get<bool>(key)` throws a typed RuntimeError when the
key is missing or the stored value cannot be cast to bool — modelled here
as an `Except BBError` result.  `TreeNode::getInput(key, dest)` returns an
error (leaving `dest` untouched) when `key` is absent from the node
configuration's input-port remapping; in the source that result is
discarded, so a failed read leaves the local `check_frame` string at its
default-constructed value "".  `setOutput(key, v)` writes `v` to the
blackboard entry the output port is remapped to, and does nothing
observable when the remapping is absent (its error result is discarded
too).  Mutation of the blackboard is modelled by explicit state passing:
`tick` returns the status (or thrown error) together with the blackboard
after the call.
-/

set_option autoImplicit false

namespace KmrBehaviorTree

/-- A value stored on the blackboard: the node only ever deals with
booleans (the flag it reads) and strings (the frame name it writes). -/
inductive BBValue where
  | vBool : Bool → BBValue
  | vString : String → BBValue
  deriving DecidableEq, Repr

/-- The typed error thrown by `Blackboard::get<bool>`: the key is missing,
or the stored value is not a bool. -/
inductive BBError where
  | missingKey : String → BBError
  | badCast : String → BBError
  deriving DecidableEq, Repr

/-- The blackboard: a finite map from string keys to typed values,
represented as an association list (first binding wins). -/
abbrev Blackboard := List (String × BBValue)

/-- Lookup of a key on the blackboard. -/
def bbGet (bb : Blackboard) (k : String) : Option BBValue :=
  match bb with
  | [] => none
  | p :: rest => if p.1 = k then some p.2 else bbGet rest k

/-- Store a value under a key: overwrite the existing binding, or append a
new one. -/
def bbSet (bb : Blackboard) (k : String) (v : BBValue) : Blackboard :=
  match bb with
  | [] => [(k, v)]
  | p :: rest => if p.1 = k then (k, v) :: rest else p :: bbSet rest k v

/-- `Blackboard::get<bool>(k)`: the typed lookup the condition performs,
throwing (here: returning) a `BBError` when the key is missing or the
value is not a bool. -/
def bbGetBool (bb : Blackboard) (k : String) : Except BBError Bool :=
  match bbGet bb k with
  | none => Except.error (BBError.missingKey k)
  | some (BBValue.vBool b) => Except.ok b
  | some (BBValue.vString _) => Except.error (BBError.badCast k)

/-- The part of `BT::NodeConfiguration` the node uses: the input-port
remapping (port name to resolved string value), the output-port remapping
(port name to blackboard key), and the shared blackboard. -/
structure NodeConfiguration where
  input_ports : List (String × String)
  output_ports : List (String × String)
  blackboard : Blackboard
  deriving DecidableEq, Repr

/-- First-match association-list lookup used for both port maps. -/
def assocFind (l : List (String × String)) (k : String) : Option String :=
  match l with
  | [] => none
  | p :: rest => if p.1 = k then some p.2 else assocFind rest k

/-- The effect of `getInput(key, dest)` with its error result discarded:
`dest` receives the port value when the port is present in the input
remapping, and keeps its previous value otherwise. -/
def readInputOrKeep (conf : NodeConfiguration) (key : String) (dest : String) : String :=
  match assocFind conf.input_ports key with
  | some v => v
  | none => dest

/-- The effect of `setOutput(key, value)` with its error result discarded:
when the output port is remapped to a blackboard key, the value is stored
there; otherwise nothing happens. -/
def setOutput (conf : NodeConfiguration) (bb : Blackboard) (key : String)
    (value : String) : Blackboard :=
  match assocFind conf.output_ports key with
  | some bbKey => bbSet bb bbKey (BBValue.vString value)
  | none => bb

/-- `FrameEmptyCondition::isFrameEmpty` (frame_empty.cpp lines 31-45):
read the `check_frame` input into a default-constructed string, look the
resulting key up on the blackboard as a bool (which may throw), and on
true write the key to the `empty_frame` output and return true.  The pair
carries the blackboard after the call. -/
def isFrameEmpty (conf : NodeConfiguration) : Except BBError Bool × Blackboard :=
  let check_frame := readInputOrKeep conf "check_frame" ""
  match bbGetBool conf.blackboard check_frame with
  | Except.error e => (Except.error e, conf.blackboard)
  | Except.ok bb_frame =>
      if bb_frame then
        (Except.ok true, setOutput conf conf.blackboard "empty_frame" check_frame)
      else
        (Except.ok false, conf.blackboard)

/-- The status a tick reports. -/
inductive NodeStatus where
  | success
  | failure
  deriving DecidableEq, Repr

/-- `FrameEmptyCondition::tick` (frame_empty.cpp lines 23-29): SUCCESS
when `isFrameEmpty` returns true, FAILURE when it returns false; a thrown
blackboard error propagates. -/
def tick (conf : NodeConfiguration) : Except BBError NodeStatus × Blackboard :=
  match isFrameEmpty conf with
  | (Except.error e, bb) => (Except.error e, bb)
  | (Except.ok true, bb) => (Except.ok NodeStatus.success, bb)
  | (Except.ok false, bb) => (Except.ok NodeStatus.failure, bb)

/-- Direction of a declared port. -/
inductive PortDirection where
  | input
  | output
  deriving DecidableEq, Repr

/-- Declared type of a port (the node only declares string ports). -/
inductive PortType where
  | stringType
  deriving DecidableEq, Repr

/-- A declared port of the node. -/
structure PortDecl where
  name : String
  direction : PortDirection
  portType : PortType
  hint : String
  deriving DecidableEq, Repr

/-- `FrameEmptyCondition::providedPorts` (frame_empty.cpp lines 47-53):
an input port `frame` and an output port `empty_frame`, both strings. -/
def providedPorts : List PortDecl :=
  [ ⟨"frame", PortDirection.input, PortType.stringType, "Which frame to check if empty"⟩,
    ⟨"empty_frame", PortDirection.output, PortType.stringType, "Which frame found to be empty"⟩ ]

/-- The name the node registers under (BT_REGISTER_NODES, line 69). -/
def registeredNodeName : String := "FrameEmpty"

theorem bbGet_bbSet_self (bb : Blackboard) (k : String) (v : BBValue) :
    bbGet (bbSet bb k v) k = some v := by
  induction bb with
  | nil => simp [bbSet, bbGet]
  | cons p rest ih =>
      by_cases h : p.1 = k
      · simp [bbSet, bbGet, h]
      · simp [bbSet, bbGet, h, ih]

theorem bbGet_bbSet_ne (bb : Blackboard) (k k' : String) (v : BBValue)
    (h : k' ≠ k) : bbGet (bbSet bb k v) k' = bbGet bb k' := by
  induction bb with
  | nil => simp [bbSet, bbGet, Ne.symm h]
  | cons p rest ih =>
      by_cases hp : p.1 = k
      · simp [bbSet, bbGet, hp, Ne.symm h]
      · simp [bbSet, bbGet, hp, ih]

theorem bbSet_bbSet_self (bb : Blackboard) (k : String) (v : BBValue) :
    bbSet (bbSet bb k v) k v = bbSet bb k v := by
  induction bb with
  | nil => simp [bbSet]
  | cons p rest ih =>
      by_cases h : p.1 = k
      · simp [bbSet, h]
      · simp [bbSet, h, ih]

/-- One-step characterisation of `tick` in terms of the key the input read
produced. -/
theorem tick_unfold (conf : NodeConfiguration) :
    tick conf =
      match bbGetBool conf.blackboard (readInputOrKeep conf "check_frame" "") with
      | Except.error e => (Except.error e, conf.blackboard)
      | Except.ok true => (Except.ok NodeStatus.success,
          setOutput conf conf.blackboard "empty_frame" (readInputOrKeep conf "check_frame" ""))
      | Except.ok false => (Except.ok NodeStatus.failure, conf.blackboard) := by
  cases hb : bbGetBool conf.blackboard (readInputOrKeep conf "check_frame" "") with
  | error e => simp [tick, isFrameEmpty, hb]
  | ok b => cases b <;> simp [tick, isFrameEmpty, hb]

/-- Concrete configuration for the true scenario: blackboard
`{frameA : true}`, input `check_frame = "frameA"`, output `empty_frame`
bound to blackboard key `"empty_frame"`. -/
def confC1 : NodeConfiguration :=
  ⟨[("check_frame", "frameA")], [("empty_frame", "empty_frame")],
    [("frameA", BBValue.vBool true)]⟩

/-- C1: whenever the blackboard maps the key named by the `check_frame`
input to the boolean true, one tick returns SUCCESS and writes the string
value of `check_frame` to the blackboard entry the `empty_frame` output
port is bound to. -/
theorem tick_true_succeeds (conf : NodeConfiguration) (cf outKey : String)
    (hin : assocFind conf.input_ports "check_frame" = some cf)
    (hbb : bbGet conf.blackboard cf = some (BBValue.vBool true))
    (hout : assocFind conf.output_ports "empty_frame" = some outKey) :
    tick conf = (Except.ok NodeStatus.success,
        bbSet conf.blackboard outKey (BBValue.vString cf))
    ∧ bbGet (bbSet conf.blackboard outKey (BBValue.vString cf)) outKey
        = some (BBValue.vString cf) := by
  have hr : readInputOrKeep conf "check_frame" "" = cf := by
    simp [readInputOrKeep, hin]
  have hg : bbGetBool conf.blackboard cf = Except.ok true := by
    simp [bbGetBool, hbb]
  constructor
  · rw [tick_unfold, hr, hg]
    simp [setOutput, hout]
  · exact bbGet_bbSet_self conf.blackboard outKey (BBValue.vString cf)

/-- Witness for C1: the `{frameA : true}` scenario evaluates to SUCCESS
with `empty_frame` set to `"frameA"`. -/
theorem tick_true_succeeds_witness :
    tick confC1 = (Except.ok NodeStatus.success,
        bbSet confC1.blackboard "empty_frame" (BBValue.vString "frameA"))
    ∧ bbGet (bbSet confC1.blackboard "empty_frame" (BBValue.vString "frameA")) "empty_frame"
        = some (BBValue.vString "frameA") :=
  tick_true_succeeds confC1 "frameA" "empty_frame" rfl rfl rfl

/-- Concrete configuration for the false scenario: blackboard
`{frameA : false}`, input `check_frame = "frameA"`. -/
def confC2 : NodeConfiguration :=
  ⟨[("check_frame", "frameA")], [("empty_frame", "empty_frame")],
    [("frameA", BBValue.vBool false)]⟩

/-- C2: whenever the blackboard maps the key named by the `check_frame`
input to the boolean false, one tick returns FAILURE and leaves the
blackboard unchanged, so `empty_frame` stays unset. -/
theorem tick_false_fails (conf : NodeConfiguration) (cf : String)
    (hin : assocFind conf.input_ports "check_frame" = some cf)
    (hbb : bbGet conf.blackboard cf = some (BBValue.vBool false)) :
    tick conf = (Except.ok NodeStatus.failure, conf.blackboard) := by
  have hr : readInputOrKeep conf "check_frame" "" = cf := by
    simp [readInputOrKeep, hin]
  have hg : bbGetBool conf.blackboard cf = Except.ok false := by
    simp [bbGetBool, hbb]
  rw [tick_unfold, hr, hg]

/-- Witness for C2: the `{frameA : false}` scenario evaluates to FAILURE
with the blackboard untouched. -/
theorem tick_false_fails_witness :
    tick confC2 = (Except.ok NodeStatus.failure, confC2.blackboard) :=
  tick_false_fails confC2 "frameA" rfl rfl

/-- Concrete configuration for the missing-key scenario: the blackboard
has no entry for `frameB`. -/
def confC3 : NodeConfiguration :=
  ⟨[("check_frame", "frameB")], [("empty_frame", "empty_frame")], []⟩

/-- C3: when the blackboard has no entry under the key named by the
`check_frame` input, or the entry is not a boolean, the tick surfaces the
typed blackboard error (missing key or bad cast) instead of a status, and
the blackboard is left unchanged — no crash, no default value. -/
theorem tick_missing_or_mistyped_errors (conf : NodeConfiguration) (cf : String)
    (hin : assocFind conf.input_ports "check_frame" = some cf) :
    (bbGet conf.blackboard cf = none →
      tick conf = (Except.error (BBError.missingKey cf), conf.blackboard))
    ∧ (∀ s, bbGet conf.blackboard cf = some (BBValue.vString s) →
      tick conf = (Except.error (BBError.badCast cf), conf.blackboard)) := by
  have hr : readInputOrKeep conf "check_frame" "" = cf := by
    simp [readInputOrKeep, hin]
  constructor
  · intro hbb
    have hg : bbGetBool conf.blackboard cf = Except.error (BBError.missingKey cf) := by
      simp [bbGetBool, hbb]
    rw [tick_unfold, hr, hg]
  · intro s hbb
    have hg : bbGetBool conf.blackboard cf = Except.error (BBError.badCast cf) := by
      simp [bbGetBool, hbb]
    rw [tick_unfold, hr, hg]

/-- Witness for C3: with an empty blackboard the tick reports the typed
missing-key error for `frameB` and changes nothing. -/
theorem tick_missing_or_mistyped_errors_witness :
    tick confC3 = (Except.error (BBError.missingKey "frameB"), confC3.blackboard) :=
  (tick_missing_or_mistyped_errors confC3 "frameB" rfl).1 rfl

/-- Full case characterisation of `tick`: the error, success and failure
outcomes together with the blackboard each leaves behind. -/
theorem tick_eq (conf : NodeConfiguration) :
    tick conf =
      match bbGetBool conf.blackboard (readInputOrKeep conf "check_frame" "") with
      | Except.error e => (Except.error e, conf.blackboard)
      | Except.ok true => (Except.ok NodeStatus.success,
          match assocFind conf.output_ports "empty_frame" with
          | some bbKey => bbSet conf.blackboard bbKey
              (BBValue.vString (readInputOrKeep conf "check_frame" ""))
          | none => conf.blackboard)
      | Except.ok false => (Except.ok NodeStatus.failure, conf.blackboard) := by
  rw [tick_unfold]
  cases bbGetBool conf.blackboard (readInputOrKeep conf "check_frame" "") with
  | error e => rfl
  | ok b => cases b <;> rfl

/-- `bbGetBool` only looks at the entry under its key. -/
theorem bbGetBool_congr (bb bb' : Blackboard) (k : String)
    (h : bbGet bb k = bbGet bb' k) : bbGetBool bb k = bbGetBool bb' k := by
  unfold bbGetBool
  rw [h]

/-- The same node configuration with its blackboard replaced: the state
the node sees on a later tick. -/
def withBlackboard (conf : NodeConfiguration) (bb : Blackboard) : NodeConfiguration :=
  ⟨conf.input_ports, conf.output_ports, bb⟩

/-- `tick` after replacing only the blackboard. -/
theorem tick_withBlackboard (conf : NodeConfiguration) (bb : Blackboard) :
    tick (withBlackboard conf bb) =
      match bbGetBool bb (readInputOrKeep conf "check_frame" "") with
      | Except.error e => (Except.error e, bb)
      | Except.ok true => (Except.ok NodeStatus.success,
          match assocFind conf.output_ports "empty_frame" with
          | some bbKey => bbSet bb bbKey
              (BBValue.vString (readInputOrKeep conf "check_frame" ""))
          | none => bb)
      | Except.ok false => (Except.ok NodeStatus.failure, bb) :=
  tick_eq (withBlackboard conf bb)

/-- `tick` depends on the configuration only through the `check_frame`
input, the output-port remapping and the blackboard. -/
theorem tick_congr (c₁ c₂ : NodeConfiguration)
    (h1 : assocFind c₁.input_ports "check_frame" = assocFind c₂.input_ports "check_frame")
    (h2 : c₁.output_ports = c₂.output_ports)
    (h3 : c₁.blackboard = c₂.blackboard) :
    tick c₁ = tick c₂ := by
  have hr : readInputOrKeep c₁ "check_frame" "" = readInputOrKeep c₂ "check_frame" "" := by
    simp only [readInputOrKeep, h1]
  rw [tick_eq, tick_eq, hr, h2, h3]

/-- Remove every binding of a key from a port remapping. -/
def removeKey (l : List (String × String)) (k : String) : List (String × String) :=
  match l with
  | [] => []
  | p :: rest => if p.1 = k then removeKey rest k else p :: removeKey rest k

/-- Replace (with `some v`) or clear (with `none`) the `frame` input port
of a configuration, leaving everything else alone. -/
def setFrameInput (conf : NodeConfiguration) (v : Option String) : NodeConfiguration :=
  { conf with input_ports :=
      match v with
      | none => removeKey conf.input_ports "frame"
      | some s => ("frame", s) :: removeKey conf.input_ports "frame" }

/-- C4: the tick's result and blackboard effect do not depend on the
`frame` input port — two configurations identical except for the value
(or absence) of `frame` produce identical outcomes. -/
theorem tick_independent_of_frame (conf : NodeConfiguration) (v w : Option String) :
    tick (setFrameInput conf v) = tick (setFrameInput conf w) := by
  have hfc : ("frame" : String) ≠ "check_frame" := by decide
  have key : ∀ u : Option String,
      assocFind (setFrameInput conf u).input_ports "check_frame"
        = assocFind (removeKey conf.input_ports "frame") "check_frame" := by
    intro u
    cases u with
    | none => rfl
    | some s =>
        show assocFind (("frame", s) :: removeKey conf.input_ports "frame") "check_frame" = _
        simp [assocFind, hfc]
  apply tick_congr
  · rw [key v, key w]
  · cases v <;> cases w <;> rfl
  · cases v <;> cases w <;> rfl

/-- Aliased configuration: the `empty_frame` output port is bound to the
very blackboard key the `check_frame` input names. -/
def confAlias : NodeConfiguration :=
  ⟨[("check_frame", "frameA")], [("empty_frame", "frameA")],
    [("frameA", BBValue.vBool true)]⟩

/-- Counterexample to C5 as stated: under the aliased configuration the
first tick succeeds and overwrites the boolean at `frameA` with the
string `"frameA"`, so the second tick throws a bad-cast error instead of
returning the same status. -/
theorem tick_not_idempotent_on_alias :
    tick confAlias = (Except.ok NodeStatus.success, [("frameA", BBValue.vString "frameA")])
    ∧ tick (withBlackboard confAlias (tick confAlias).2)
        = (Except.error (BBError.badCast "frameA"),
            [("frameA", BBValue.vString "frameA")]) :=
  ⟨rfl, rfl⟩

/-- C5 (amended): provided the `empty_frame` output port is not bound to
the same blackboard key the `check_frame` input names, a second tick on
the blackboard the first tick left behind returns the same outcome and
the same final blackboard as the first. -/
theorem tick_idempotent_no_alias (conf : NodeConfiguration)
    (h : assocFind conf.output_ports "empty_frame"
          ≠ some (readInputOrKeep conf "check_frame" "")) :
    tick (withBlackboard conf (tick conf).2) = tick conf := by
  cases hb : bbGetBool conf.blackboard (readInputOrKeep conf "check_frame" "") with
  | error e =>
      have h1 : tick conf = (Except.error e, conf.blackboard) := by rw [tick_eq, hb]
      have hsnd : (tick conf).2 = conf.blackboard := by rw [h1]
      rw [hsnd]
      rfl
  | ok b =>
      cases b with
      | false =>
          have h1 : tick conf = (Except.ok NodeStatus.failure, conf.blackboard) := by
            rw [tick_eq, hb]
          have hsnd : (tick conf).2 = conf.blackboard := by rw [h1]
          rw [hsnd]
          rfl
      | true =>
          cases ho : assocFind conf.output_ports "empty_frame" with
          | none =>
              have h1 : tick conf = (Except.ok NodeStatus.success, conf.blackboard) := by
                rw [tick_eq, hb, ho]
              have hsnd : (tick conf).2 = conf.blackboard := by rw [h1]
              rw [hsnd]
              rfl
          | some outKey =>
              have hne : readInputOrKeep conf "check_frame" "" ≠ outKey := by
                intro he
                apply h
                rw [ho, he]
              have h1 : tick conf = (Except.ok NodeStatus.success,
                  bbSet conf.blackboard outKey
                    (BBValue.vString (readInputOrKeep conf "check_frame" ""))) := by
                rw [tick_eq, hb, ho]
              have hsnd : (tick conf).2 = bbSet conf.blackboard outKey
                  (BBValue.vString (readInputOrKeep conf "check_frame" "")) := by
                rw [h1]
              have hb' : bbGetBool (bbSet conf.blackboard outKey
                    (BBValue.vString (readInputOrKeep conf "check_frame" "")))
                  (readInputOrKeep conf "check_frame" "") = Except.ok true := by
                rw [bbGetBool_congr _ conf.blackboard _
                  (bbGet_bbSet_ne _ _ _ _ hne), hb]
              rw [hsnd, h1, tick_withBlackboard, hb', ho]
              simp only [bbSet_bbSet_self]

/-- Non-aliased configuration used to witness the amended idempotence:
the output is bound to `slot`, distinct from the looked-up key
`frameA`. -/
def confNoAlias : NodeConfiguration :=
  ⟨[("check_frame", "frameA")], [("empty_frame", "slot")],
    [("frameA", BBValue.vBool true)]⟩

/-- Witness for the amended C5: on the non-aliased configuration the
second tick reproduces the first tick's outcome and blackboard. -/
theorem tick_idempotent_no_alias_witness :
    tick (withBlackboard confNoAlias (tick confNoAlias).2) = tick confNoAlias :=
  tick_idempotent_no_alias confNoAlias (by decide)

/-- Configuration with a bystander entry `other` used to witness the
frame effect. -/
def confC6 : NodeConfiguration :=
  ⟨[("check_frame", "frameA")], [("empty_frame", "slot")],
    [("frameA", BBValue.vBool true), ("other", BBValue.vString "x")]⟩

/-- C6: one tick changes nothing except, on success, the blackboard entry
the `empty_frame` output is bound to — every other key reads the same
before and after (also when the tick throws), and a FAILURE tick leaves
the blackboard entirely unchanged. -/
theorem tick_frame_effect (conf : NodeConfiguration) :
    (∀ k, assocFind conf.output_ports "empty_frame" ≠ some k →
      bbGet (tick conf).2 k = bbGet conf.blackboard k)
    ∧ ((tick conf).1 = Except.ok NodeStatus.failure → (tick conf).2 = conf.blackboard) := by
  cases hb : bbGetBool conf.blackboard (readInputOrKeep conf "check_frame" "") with
  | error e =>
      have h1 : tick conf = (Except.error e, conf.blackboard) := by rw [tick_eq, hb]
      rw [h1]
      exact ⟨fun k _ => rfl, fun _ => rfl⟩
  | ok b =>
      cases b with
      | false =>
          have h1 : tick conf = (Except.ok NodeStatus.failure, conf.blackboard) := by
            rw [tick_eq, hb]
          rw [h1]
          exact ⟨fun k _ => rfl, fun _ => rfl⟩
      | true =>
          cases ho : assocFind conf.output_ports "empty_frame" with
          | none =>
              have h1 : tick conf = (Except.ok NodeStatus.success, conf.blackboard) := by
                rw [tick_eq, hb, ho]
              rw [h1]
              exact ⟨fun k _ => rfl, fun _ => rfl⟩
          | some outKey =>
              have h1 : tick conf = (Except.ok NodeStatus.success,
                  bbSet conf.blackboard outKey
                    (BBValue.vString (readInputOrKeep conf "check_frame" ""))) := by
                rw [tick_eq, hb, ho]
              rw [h1]
              constructor
              · intro k hk
                have hkk : k ≠ outKey := by
                  intro he
                  apply hk
                  rw [he]
                exact bbGet_bbSet_ne _ _ _ _ hkk
              · intro hcontra
                simp at hcontra

/-- Witness for C6: the bystander entry `other` is unchanged by a
successful tick. -/
theorem tick_frame_effect_witness :
    bbGet (tick confC6).2 "other" = bbGet confC6.blackboard "other" :=
  (tick_frame_effect confC6).1 "other" (by decide)

/-- Counterexample to C7 as stated: the declared port list contains no
port named `check_frame` — the port the evaluation reads is absent from
`providedPorts`. -/
theorem check_frame_not_declared :
    (providedPorts.map PortDecl.name).contains "check_frame" = false := by
  decide

/-- Configuration reading flag `a` (true on the blackboard). -/
def confReadA : NodeConfiguration :=
  ⟨[("check_frame", "a")], [],
    [("a", BBValue.vBool true), ("b", BBValue.vBool false)]⟩

/-- Same as `confReadA` except the `check_frame` input names `b`. -/
def confReadB : NodeConfiguration :=
  ⟨[("check_frame", "b")], [],
    [("a", BBValue.vBool true), ("b", BBValue.vBool false)]⟩

/-- C7 (amended): the node registers under `FrameEmpty` and declares
exactly the string input port `frame` and the string output port
`empty_frame`; `check_frame` is not declared, although the evaluation
does read it (two configurations differing only in that input give
different outcomes). -/
theorem registration_and_ports :
    registeredNodeName = "FrameEmpty"
    ∧ providedPorts.map (fun p => (p.name, p.direction, p.portType))
        = [("frame", PortDirection.input, PortType.stringType),
           ("empty_frame", PortDirection.output, PortType.stringType)]
    ∧ (providedPorts.map PortDecl.name).contains "check_frame" = false
    ∧ tick confReadA ≠ tick confReadB := by
  refine ⟨rfl, rfl, by decide, ?_⟩
  intro hcontra
  have hA : tick confReadA = (Except.ok NodeStatus.success,
      [("a", BBValue.vBool true), ("b", BBValue.vBool false)]) := rfl
  have hB : tick confReadB = (Except.ok NodeStatus.failure,
      [("a", BBValue.vBool true), ("b", BBValue.vBool false)]) := rfl
  rw [hA, hB] at hcontra
  simp at hcontra

/-- C10: the `check_frame` read's failure is ignored — the port is not
among the declared ports, and whenever the input remapping lacks it the
tick proceeds with the default-constructed empty string as the blackboard
key instead of aborting. -/
theorem tick_ignores_input_failure (conf : NodeConfiguration)
    (h : assocFind conf.input_ports "check_frame" = none) :
    (providedPorts.map PortDecl.name).contains "check_frame" = false
    ∧ tick conf =
      match bbGetBool conf.blackboard "" with
      | Except.error e => (Except.error e, conf.blackboard)
      | Except.ok true => (Except.ok NodeStatus.success,
          setOutput conf conf.blackboard "empty_frame" "")
      | Except.ok false => (Except.ok NodeStatus.failure, conf.blackboard) := by
  have hr : readInputOrKeep conf "check_frame" "" = "" := by
    simp [readInputOrKeep, h]
  exact ⟨by decide, by rw [tick_unfold, hr]⟩

/-- Configuration with no `check_frame` input at all and a boolean stored
under the empty-string key. -/
def confC10 : NodeConfiguration :=
  ⟨[], [("empty_frame", "slot")], [("", BBValue.vBool true)]⟩

/-- Witness for C10: with no `check_frame` input the tick runs the lookup
at the empty-string key. -/
theorem tick_ignores_input_failure_witness :
    (providedPorts.map PortDecl.name).contains "check_frame" = false
    ∧ tick confC10 =
      match bbGetBool confC10.blackboard "" with
      | Except.error e => (Except.error e, confC10.blackboard)
      | Except.ok true => (Except.ok NodeStatus.success,
          setOutput confC10 confC10.blackboard "empty_frame" "")
      | Except.ok false => (Except.ok NodeStatus.failure, confC10.blackboard) :=
  tick_ignores_input_failure confC10 rfl

end KmrBehaviorTree

/-
Part 2: the MoveItCpp demo driver `src/kuka_moveit2/src/run_moveit.cpp`
(class MoveItCppDemo).  Only its own decision logic is modelled: the
fixed plan-request parameters `move` fills in, and the sequence of
messages it publishes depending on whether `arm->plan` returned a
solution.  The planning pipeline itself is an external collaborator; its
result enters the model as an `Option` trajectory.  Real-valued message
fields are modelled as rationals.
-/

namespace KukaMoveit2

/-- The fields of `PlanRequestParameters` that `MoveItCppDemo::move`
assigns (run_moveit.cpp lines 257-264). -/
structure PlanRequestParameters where
  planning_attempts : Nat
  planning_time : Rat
  max_velocity_scaling_factor : Rat
  max_acceleration_scaling_factor : Rat
  planning_pipeline : String
  deriving DecidableEq, Repr

/-- The parameter assignment `move` performs before calling `plan`: the
four fixed values, then the first available pipeline name when the set of
pipeline names is nonempty. -/
def moveParameters (pipelines : List String)
    (prev : PlanRequestParameters) : PlanRequestParameters :=
  let p := { prev with
      planning_attempts := 1,
      planning_time := 5.0,
      max_velocity_scaling_factor := 0.4,
      max_acceleration_scaling_factor := 0.4 }
  match pipelines with
  | [] => p
  | first :: _ => { p with planning_pipeline := first }

/-- A trajectory waypoint: the robot state (its joint positions) and the
scheduled time from the start of the trajectory. -/
structure Waypoint where
  jointPositions : List Rat
  timeFromStart : Rat
  deriving DecidableEq, Repr

/-- A message published by the demo node: a DisplayRobotState on the
`display_robot_state` topic, or a JointTrajectory on the fake controller
topic. -/
inductive PubEvent where
  | displayRobotState : List Rat → PubEvent
  | jointTrajectory : List Waypoint → PubEvent
  deriving DecidableEq, Repr

/-- `MoveItCppDemo::visualizeTrajectory` (run_moveit.cpp lines 215-230):
publish every waypoint's robot state in trajectory order; the sleeps that
pace the replay to the scheduled times do not alter the sequence of
publications. -/
def visualizeTrajectory (trajectory : List Waypoint) : List PubEvent :=
  trajectory.map (fun w => PubEvent.displayRobotState w.jointPositions)

/-- Publications of one `MoveItCppDemo::move` call (lines 265-274) as a
function of the plan solution: nothing without a solution (the function
simply returns — it is total, so no error reaches the caller), else the
waypoint replay followed by one joint-trajectory publication. -/
def movePublications (plan_solution : Option (List Waypoint)) : List PubEvent :=
  match plan_solution with
  | none => []
  | some trajectory =>
      visualizeTrajectory trajectory ++ [PubEvent.jointTrajectory trajectory]

/-- Discriminator for joint-trajectory publications. -/
def isJointTrajectoryPub : PubEvent → Bool
  | PubEvent.jointTrajectory _ => true
  | PubEvent.displayRobotState _ => false

/-- C8: every plan request issued by `move` carries exactly one planning
attempt, a 5.0-second time budget, and 0.4 velocity and acceleration
scaling, whatever the previous parameter values and available pipelines
were. -/
theorem move_plan_parameters (pipelines : List String)
    (prev : PlanRequestParameters) :
    (moveParameters pipelines prev).planning_attempts = 1
    ∧ (moveParameters pipelines prev).planning_time = 5.0
    ∧ (moveParameters pipelines prev).max_velocity_scaling_factor = 0.4
    ∧ (moveParameters pipelines prev).max_acceleration_scaling_factor = 0.4 := by
  cases pipelines <;> exact ⟨rfl, rfl, rfl, rfl⟩

/-- C9: without a plan solution `move` publishes nothing (and, being a
total function, propagates no error); with a solution it first publishes
the waypoints in trajectory order and then publishes the joint trajectory
exactly once, at the end. -/
theorem move_publication_behavior (trajectory : List Waypoint) :
    movePublications none = []
    ∧ movePublications (some trajectory)
        = trajectory.map (fun w => PubEvent.displayRobotState w.jointPositions)
          ++ [PubEvent.jointTrajectory trajectory]
    ∧ List.countP isJointTrajectoryPub (movePublications (some trajectory)) = 1 := by
  refine ⟨rfl, rfl, ?_⟩
  simp only [movePublications, visualizeTrajectory, List.countP_append,
    List.countP_map]
  have h0 : List.countP (isJointTrajectoryPub ∘
      fun w => PubEvent.displayRobotState w.jointPositions) trajectory = 0 := by
    induction trajectory with
    | nil => rfl
    | cons w rest ih => simp [List.countP_cons, ih, isJointTrajectoryPub]
  rw [h0]
  rfl

end KukaMoveit2
